import Mathlib

/-!
Verification of the CalDAV-Sync service core against its specification.

This file shallowly embeds the sync subsystem of the repository
(`app/sync/differ.py`, `app/sync/engine.py`, `app/sync/scheduler.py`,
`app/sync/webhook.py`, `app/sync/normalizer.py`, `app/caldav/models.py`,
`app/google/models.py`) into Lean and proves or refutes the specified
properties.

Modelling conventions:
* Python `datetime` instants that are only ever *compared* (modification
  timestamps) are modelled as `Option Int` (UTC epoch instants); the code's
  "promote naive datetimes to UTC" normalisation is the identity on this
  model since the model always stores UTC instants.
* `datetime` values that are *rendered into the content hash* (event
  start/end) are modelled by `PyDT`, a record of calendar fields, with an
  abstract injective rendering standing in for Python's `str()`.
* Python truthiness of optional strings (`if s:`) is `strTruthy`:
  `none` and `some ""` are falsy.
* SHA-256 is implemented concretely (bytes via UTF-8), so that content
  hashes can be evaluated on concrete events.
-/

/-- Python `x or ""` on an optional string. -/
def optStr (o : Option String) : String :=
  match o with
  | none => ""
  | some s => s

/-- Python truthiness of an optional string (`None` and `""` are falsy). -/
def strTruthy (o : Option String) : Bool :=
  match o with
  | none => false
  | some s => s ≠ ""

/-- Python truthiness of a plain string. -/
def pyTruthy (s : String) : Bool := s ≠ ""

/-- Python `str.startswith`, on the character data. -/
def strStartsWith (s p : String) : Bool := p.data.isPrefixOf s.data

/-- Python slicing `s[n:]`, on the character data. -/
def strDrop (s : String) (n : Nat) : String := String.mk (s.data.drop n)

/-- Lookup in a Python dict built by one comprehension pass: the *last*
binding for a key wins. -/
def dictFind {α : Type} (key : α → Option String) (k : String) (l : List α) : Option α :=
  l.reverse.find? (fun a => key a = some k)

/-! ## SHA-256 (RFC 6234), executable over byte lists -/

/-- Truncate to 32 bits. -/
def w32 (n : Nat) : Nat := n % 4294967296

/-- 32-bit modular addition. -/
def add32 (a b : Nat) : Nat := (a + b) % 4294967296

/-- 32-bit rotate right. -/
def rotr32 (n x : Nat) : Nat := w32 ((x >>> n) ||| (x <<< (32 - n)))

def bsig0 (x : Nat) : Nat := (rotr32 2 x) ^^^ (rotr32 13 x) ^^^ (rotr32 22 x)

def bsig1 (x : Nat) : Nat := (rotr32 6 x) ^^^ (rotr32 11 x) ^^^ (rotr32 25 x)

def ssig0 (x : Nat) : Nat := (rotr32 7 x) ^^^ (rotr32 18 x) ^^^ (x >>> 3)

def ssig1 (x : Nat) : Nat := (rotr32 17 x) ^^^ (rotr32 19 x) ^^^ (x >>> 10)

def chF (e f g : Nat) : Nat := (e &&& f) ^^^ (g &&& (e ^^^ 4294967295))

def majF (a b c : Nat) : Nat := (a &&& b) ^^^ ((a &&& c) ^^^ (b &&& c))

/-- The 64 SHA-256 round constants (FIPS 180-4: the first 32 fractional
bits of the cube roots of the first 64 primes), written in decimal. -/
def sha256K : List Nat :=
  [1116352408, 1899447441, 3049323471, 3921009573,
   961987163, 1508970993, 2453635748, 2870763221,
   3624381080, 310598401, 607225278, 1426881987,
   1925078388, 2162078206, 2614888103, 3248222580,
   3835390401, 4022224774, 264347078, 604807628,
   770255983, 1249150122, 1555081692, 1996064986,
   2554220882, 2821834349, 2952996808, 3210313671,
   3336571891, 3584528711, 113926993, 338241895,
   666307205, 773529912, 1294757372, 1396182291,
   1695183700, 1986661051, 2177026350, 2456956037,
   2730485921, 2820302411, 3259730800, 3345764771,
   3516065817, 3600352804, 4094571909, 275423344,
   430227734, 506948616, 659060556, 883997877,
   958139571, 1322822218, 1537002063, 1747873779,
   1955562222, 2024104815, 2227730452, 2361852424,
   2428436474, 2756734187, 3204031479, 3329325298]

structure Hv where
  a : Nat
  b : Nat
  c : Nat
  d : Nat
  e : Nat
  f : Nat
  g : Nat
  h : Nat
deriving DecidableEq

/-- The 8 SHA-256 initial hash words (the first 32 fractional bits of the
square roots of the first 8 primes), in decimal. -/
def sha256Init : Hv :=
  ⟨1779033703, 3144134277, 1013904242, 2773480762,
   1359893119, 2600822924, 528734635, 1541459225⟩

/-- Extend the 16 message-schedule words to 64. -/
def schedExt : Nat → List Nat → List Nat
  | 0, acc => acc
  | n + 1, acc =>
    let i := acc.length
    let nw := add32 (add32 (ssig1 (acc.get! (i - 2))) (acc.get! (i - 7)))
                    (add32 (ssig0 (acc.get! (i - 15))) (acc.get! (i - 16)))
    schedExt n (acc ++ [nw])

def roundStep (st : Hv) (kw : Nat × Nat) : Hv :=
  let t1 := add32 st.h (add32 (bsig1 st.e) (add32 (chF st.e st.f st.g) (add32 kw.1 kw.2)))
  let t2 := add32 (bsig0 st.a) (majF st.a st.b st.c)
  ⟨add32 t1 t2, st.a, st.b, st.c, add32 st.d t1, st.e, st.f, st.g⟩

def sha256Compress (st : Hv) (chunk : List Nat) : Hv :=
  let ws := schedExt 48 chunk
  let r := (sha256K.zip ws).foldl roundStep st
  ⟨add32 st.a r.a, add32 st.b r.b, add32 st.c r.c, add32 st.d r.d,
   add32 st.e r.e, add32 st.f r.f, add32 st.g r.g, add32 st.h r.h⟩

/-- Big-endian 8-byte encoding of a (bit-)length. -/
def lenBytes (n : Nat) : List Nat :=
  [(n >>> 56) % 256, (n >>> 48) % 256, (n >>> 40) % 256, (n >>> 32) % 256,
   (n >>> 24) % 256, (n >>> 16) % 256, (n >>> 8) % 256, n % 256]

def padMessage (bytes : List Nat) : List Nat :=
  let L := bytes.length
  let k := (64 - ((L + 9) % 64)) % 64
  bytes ++ [128] ++ List.replicate k 0 ++ lenBytes (8 * L)

/-- Group bytes into big-endian 32-bit words. -/
def toWords : List Nat → List Nat
  | a :: b :: c :: d :: rest => (((a * 256 + b) * 256 + c) * 256 + d) :: toWords rest
  | _ => []

def processWords : Nat → List Nat → Hv → Hv
  | 0, _, st => st
  | _, [], st => st
  | fuel + 1, ws, st => processWords fuel (ws.drop 16) (sha256Compress st (ws.take 16))

def sha256Bytes (bytes : List Nat) : Hv :=
  let ws := toWords (padMessage bytes)
  processWords ws.length ws sha256Init

def hexChar (n : Nat) : Char :=
  Char.ofNat (n + (if n < 10 then 48 else 87))

def word8Hex (n : Nat) : List Char :=
  [hexChar ((n >>> 28) % 16), hexChar ((n >>> 24) % 16), hexChar ((n >>> 20) % 16),
   hexChar ((n >>> 16) % 16), hexChar ((n >>> 12) % 16), hexChar ((n >>> 8) % 16),
   hexChar ((n >>> 4) % 16), hexChar (n % 16)]

def hvHex (st : Hv) : String :=
  String.mk (word8Hex st.a ++ word8Hex st.b ++ word8Hex st.c ++ word8Hex st.d ++
             word8Hex st.e ++ word8Hex st.f ++ word8Hex st.g ++ word8Hex st.h)

/-- UTF-8 encoding of one character. -/
def utf8Char (c : Char) : List Nat :=
  let n := c.toNat
  if n < 128 then [n]
  else if n < 2048 then [192 ||| (n >>> 6), 128 ||| (n &&& 63)]
  else if n < 65536 then
    [224 ||| (n >>> 12), 128 ||| ((n >>> 6) &&& 63), 128 ||| (n &&& 63)]
  else
    [240 ||| (n >>> 18), 128 ||| ((n >>> 12) &&& 63), 128 ||| ((n >>> 6) &&& 63), 128 ||| (n &&& 63)]

def strBytes (s : String) : List Nat := (s.data.map utf8Char).flatten

/-- Python's `hashlib.sha256(s.encode()).hexdigest()`. -/
def sha256hex (s : String) : String := hvHex (sha256Bytes (strBytes s))

/-- NIST test vector: SHA-256 of the empty string. -/
theorem sha256hex_empty :
    sha256hex "" = "e3b0c44298fc1c149afbf4c8996fb92427ae41e4649b934ca495991b7852b855" := by
  decide

/-- NIST test vector: SHA-256 of "abc". -/
theorem sha256hex_abc :
    sha256hex "abc" = "ba7816bf8f01cfea414140de5dae2223b00361a396177a9cb410ff61f20015ad" := by
  decide

/-! ## Event model (`app/caldav/models.py`, `app/google/models.py`) -/

/-- Model of a Python `datetime`/`date` value as it appears in event
start/end fields.  `dateOnly` distinguishes `date` objects from
`datetime` objects; `tz` is the attached tzinfo (none = naive).
`pyStrDT` below abstracts Python's `str()` rendering. -/
structure PyDT where
  day : Int
  hour : Nat
  minute : Nat
  second : Nat
  micro : Nat
  tz : Option String
  dateOnly : Bool
deriving DecidableEq

/-- Abstract stand-in for Python's `str(datetime)` rendering (the exact
character format does not matter to any property; both sides render the
same value identically). -/
def pyStrDT (d : PyDT) : String :=
  toString d.day ++ " " ++ toString d.hour ++ ":" ++ toString d.minute ++ ":" ++
  toString d.second ++ "." ++ toString d.micro ++ "/" ++ optStr d.tz ++
  (if d.dateOnly then "D" else "T")

/-- Rendering used by `get_content_hash`: `str(self.start) if self.start else ""`. -/
def optStrDT (o : Option PyDT) : String :=
  match o with
  | none => ""
  | some d => pyStrDT d

/-- Python `str(bool)`. -/
def pyStrBool (b : Bool) : String := if b then "True" else "False"

/-- Normalized CalDAV event (`CalDAVEvent` dataclass), field for field.
`last_modified` and `created` are instants (`Option Int`), compared but
never rendered. -/
structure CalDAVEvent where
  uid : String
  summary : String
  description : Option String := none
  start : Option PyDT := none
  end_ : Option PyDT := none
  all_day : Bool := false
  timezone : Option String := none
  location : Option String := none
  rrule : Option String := none
  recurrence_id : Option String := none
  last_modified : Option Int := none
  created : Option Int := none
  sequence : Int := 0
deriving DecidableEq

/-- Normalized Google Calendar event (`GoogleCalendarEvent` dataclass). -/
structure GoogleCalendarEvent where
  id : Option String := none
  uid : Option String := none
  summary : String := ""
  description : Option String := none
  start : Option PyDT := none
  end_ : Option PyDT := none
  all_day : Bool := false
  timezone : Option String := none
  location : Option String := none
  recurrence : Option (List String) := none
  recurring_event_id : Option String := none
  updated : Option Int := none
  created : Option Int := none
  sequence : Int := 0
  status : String := "confirmed"
deriving DecidableEq

/-- Persisted `EventMapping` row (`app/database.py`). -/
structure EventMapping where
  id : String
  mapping_id : String
  caldav_uid : String
  google_event_id : Option String := none
  last_caldav_modified : Option Int := none
  last_google_updated : Option Int := none
  sync_direction_last : Option String := none
  event_hash : Option String := none
deriving DecidableEq

/-- `CalDAVEvent.get_content_hash`: SHA-256 over the `"|"`-joined parts. -/
def caldavContentHash (e : CalDAVEvent) : String :=
  sha256hex (String.intercalate "|"
    [e.uid, e.summary, optStr e.description, optStr e.location,
     optStrDT e.start, optStrDT e.end_, pyStrBool e.all_day,
     optStr e.timezone, optStr e.rrule, optStr e.recurrence_id])

/-- `GoogleCalendarEvent.get_content_hash`: SHA-256 over the `"|"`-joined
parts; the recurrence list is itself `"|"`-joined. -/
def googleContentHash (e : GoogleCalendarEvent) : String :=
  sha256hex (String.intercalate "|"
    [optStr e.uid, e.summary, optStr e.description, optStr e.location,
     optStrDT e.start, optStrDT e.end_, pyStrBool e.all_day,
     optStr e.timezone, String.intercalate "|" (e.recurrence.getD []),
     optStr e.recurring_event_id])

/-! ## Dataclass construction: validation and normalisation

Both event dataclasses run `_validate_required_fields`, `_normalize_dates`
and `_normalize_timezone` in `__post_init__`.  The three helpers are
textually identical in the two classes, so they are shared here. -/

/-- Modelled from the spec: pytz's timezone database is external to this
repository; the spec only says "Unknown zone ⇒ UTC plus warning".  We model
the database as recognising "UTC" (no proved property depends on which
names are known). -/
def knownTz (s : String) : Bool := s = "UTC"

/-- `datetime.replace(hour=0, minute=0, second=0, microsecond=0)` on
datetime values; `date` values are left alone (the `isinstance(…, datetime)`
guard). -/
def toMidnight (d : PyDT) : PyDT :=
  if d.dateOnly then d else { d with hour := 0, minute := 0, second := 0, micro := 0 }

/-- `datetime.combine(d, datetime.min.time())` for `date` values; datetime
values are left alone. -/
def dateToDatetime (d : PyDT) : PyDT :=
  if d.dateOnly then
    { day := d.day, hour := 0, minute := 0, second := 0, micro := 0, tz := none, dateOnly := false }
  else d

/-- `_normalize_dates` on the `(start, end)` pair. -/
def normalizeDatesFields (allDay : Bool) (s e : Option PyDT) : Option PyDT × Option PyDT :=
  if allDay then (s.map toMidnight, e.map toMidnight)
  else (s.map dateToDatetime, e.map dateToDatetime)

/-- `tz.localize(dt)`: attach a timezone to a naive datetime. -/
def localize (tzName : String) (d : PyDT) : PyDT := { d with tz := some tzName }

/-- `_normalize_timezone` on `(timezone, start, end)`. -/
def normalizeTimezoneFields (allDay : Bool) (tzField : Option String) (s e : Option PyDT) :
    Option String × Option PyDT × Option PyDT :=
  match s, e with
  | some sd, some ed =>
    if allDay then (tzField, some sd, some ed)
    else if strTruthy tzField && sd.tz.isNone then
      let name := optStr tzField
      if knownTz name then (tzField, some (localize name sd), some (localize name ed))
      else (some "UTC", some (localize "UTC" sd), some (localize "UTC" ed))
    else if !strTruthy tzField && sd.tz.isSome then
      (some (optStr sd.tz), some sd, some ed)
    else (tzField, some sd, some ed)
  | s', e' => (tzField, s', e')

/-- `_normalize_dates` followed by `_normalize_timezone` on the
`(timezone, start, end)` fields. -/
def normalizeEventFields (allDay : Bool) (tzField : Option String) (s e : Option PyDT) :
    Option String × Option PyDT × Option PyDT :=
  normalizeTimezoneFields allDay tzField
    (normalizeDatesFields allDay s e).1 (normalizeDatesFields allDay s e).2

/-- `CalDAVEvent.__post_init__`: validation then normalisation.  Returns
the constructed event or the `EventNormalizationError` message. -/
def mkCalDAVEvent (e : CalDAVEvent) : Except String CalDAVEvent :=
  if !pyTruthy e.uid then .error "Event UID is required"
  else if !pyTruthy e.summary then .error "Event summary is required"
  else if !e.all_day && (e.start.isNone || e.end_.isNone) then
    .error "Start and end times are required for non-all-day events"
  else
    .ok { e with
          start := (normalizeEventFields e.all_day e.timezone e.start e.end_).2.1,
          end_ := (normalizeEventFields e.all_day e.timezone e.start e.end_).2.2,
          timezone := (normalizeEventFields e.all_day e.timezone e.start e.end_).1 }

/-- `GoogleCalendarEvent.__post_init__`: validation then normalisation. -/
def mkGoogleEvent (e : GoogleCalendarEvent) : Except String GoogleCalendarEvent :=
  if !pyTruthy e.summary then .error "Event summary is required"
  else if !e.all_day && (e.start.isNone || e.end_.isNone) then
    .error "Start and end times are required for non-all-day events"
  else
    .ok { e with
          start := (normalizeEventFields e.all_day e.timezone e.start e.end_).2.1,
          end_ := (normalizeEventFields e.all_day e.timezone e.start e.end_).2.2,
          timezone := (normalizeEventFields e.all_day e.timezone e.start e.end_).1 }

/-- An event is *normalized* when it is a fixpoint of its own constructor
(i.e. it could have been produced by the dataclass). -/
def isNormalizedG (g : GoogleCalendarEvent) : Bool :=
  match mkGoogleEvent g with
  | .ok g2 => g2 = g
  | .error _ => false

/-! ## Normalizer (`app/sync/normalizer.py`) -/

/-- The field record `caldav_to_google` passes to the `GoogleCalendarEvent`
constructor. -/
def caldavToGoogleRaw (c : CalDAVEvent) : GoogleCalendarEvent :=
  { id := none, uid := some c.uid, summary := c.summary,
    description := c.description, start := c.start, end_ := c.end_,
    all_day := c.all_day, timezone := c.timezone, location := c.location,
    recurrence := if strTruthy c.rrule then some ["RRULE:" ++ optStr c.rrule] else none,
    recurring_event_id := none, updated := none, created := none,
    sequence := c.sequence, status := "confirmed" }

/-- `EventNormalizer.caldav_to_google`. -/
def caldavToGoogle (c : CalDAVEvent) : Except String GoogleCalendarEvent :=
  match mkGoogleEvent (caldavToGoogleRaw c) with
  | .ok g => .ok g
  | .error e => .error ("Failed to convert CalDAV event to Google format: " ++ e)

/-- Extraction of the first `RRULE:` entry from a Google recurrence list
(`google_to_caldav`, lines 82-87). -/
def extractRRule (rec : Option (List String)) : Option String :=
  match rec with
  | none => none
  | some l =>
    if l = [] then none
    else
      match l.find? (fun r => strStartsWith r "RRULE:") with
      | some r => some (strDrop r 6)
      | none => none

/-- The field record `google_to_caldav` passes to the `CalDAVEvent`
constructor (`uid = google_event.uid or google_event.id`). -/
def googleToCaldavRaw (g : GoogleCalendarEvent) : CalDAVEvent :=
  { uid := if strTruthy g.uid then optStr g.uid else optStr g.id,
    summary := g.summary, description := g.description,
    start := g.start, end_ := g.end_, all_day := g.all_day,
    timezone := g.timezone, location := g.location,
    rrule := extractRRule g.recurrence, recurrence_id := none,
    last_modified := g.updated, created := g.created,
    sequence := g.sequence }

/-- `EventNormalizer.google_to_caldav`. -/
def googleToCaldav (g : GoogleCalendarEvent) : Except String CalDAVEvent :=
  match mkCalDAVEvent (googleToCaldavRaw g) with
  | .ok c => .ok c
  | .error e => .error ("Failed to convert Google event to CalDAV format: " ++ e)

/-! ## Differ (`app/sync/differ.py`) -/

inductive ChangeAction where
  | INSERT
  | UPDATE
  | DELETE
  | NO_CHANGE
deriving DecidableEq

inductive ConflictResolution where
  | CALDAV_WINS
  | GOOGLE_WINS
  | SKIP
deriving DecidableEq

/-- `EventChange` dataclass. -/
structure EventChange where
  action : ChangeAction
  event_uid : String
  caldav_event : Option CalDAVEvent := none
  google_event : Option GoogleCalendarEvent := none
  existing_mapping : Option EventMapping := none
  conflict_resolution : Option ConflictResolution := none
  reason : String := ""
deriving DecidableEq

/-- `SyncChanges` dataclass. -/
structure SyncChanges where
  caldav_to_google : List EventChange
  google_to_caldav : List EventChange
  conflicts : List EventChange
deriving DecidableEq

/-- One side's timestamp-based change test:
`not last_sync or (modified and modified > last_sync)`.
(The code first promotes naive datetimes to UTC; on this model of UTC
instants that promotion is the identity.) -/
def tsChanged (modified lastSync : Option Int) : Bool :=
  match lastSync with
  | none => true
  | some ls =>
    match modified with
    | none => false
    | some mo => mo > ls

/-- The warning message emitted by `_resolve_conflict` when both
timestamps are missing. -/
def conflictWarningMsg (uid : String) : String :=
  "Conflict resolution fallback: both events missing timestamps for UID " ++ uid ++
  ", defaulting to CalDAV source"

/-- `EventDiffer._resolve_conflict`.  Returns the resolution together with
the list of warning log messages emitted. -/
def resolveConflict (c : CalDAVEvent) (g : GoogleCalendarEvent) :
    ConflictResolution × List String :=
  match c.last_modified, g.updated with
  | some cm, some gm =>
    if cm > gm then (.CALDAV_WINS, [])
    else if gm > cm then (.GOOGLE_WINS, [])
    else (.CALDAV_WINS, [])
  | some _, none => (.CALDAV_WINS, [])
  | none, some _ => (.GOOGLE_WINS, [])
  | none, none => (.CALDAV_WINS, [conflictWarningMsg c.uid])

/-- `EventDiffer._analyze_conflict_or_update`. -/
def analyzeConflictOrUpdate (c : CalDAVEvent) (g : GoogleCalendarEvent)
    (m : Option EventMapping) : EventChange :=
  let cc0 := tsChanged c.last_modified (m.bind (·.last_caldav_modified))
  let gc0 := tsChanged g.updated (m.bind (·.last_google_updated))
  let p :=
    if !cc0 && !gc0 then
      let ch := caldavContentHash c
      let gh := googleContentHash g
      let mh := m.bind (·.event_hash)
      if strTruthy mh then (decide (ch ≠ optStr mh), decide (gh ≠ optStr mh))
      else (decide (ch ≠ gh), gc0)
    else (cc0, gc0)
  if !p.1 && !p.2 then
    { action := .NO_CHANGE, event_uid := c.uid, caldav_event := some c,
      google_event := some g, existing_mapping := m, reason := "No changes detected" }
  else if p.1 && !p.2 then
    { action := .UPDATE, event_uid := c.uid, caldav_event := some c,
      google_event := some g, existing_mapping := m, reason := "CalDAV event updated" }
  else if p.2 && !p.1 then
    { action := .UPDATE, event_uid := c.uid, caldav_event := some c,
      google_event := some g, existing_mapping := m, reason := "Google event updated" }
  else
    { action := .UPDATE, event_uid := c.uid, caldav_event := some c,
      google_event := some g, existing_mapping := m,
      conflict_resolution := some (resolveConflict c g).1,
      reason := "Conflict detected - both events modified" }

/-- `EventDiffer._analyze_event_pair`. -/
def analyzeEventPair (c : Option CalDAVEvent) (g : Option GoogleCalendarEvent)
    (m : Option EventMapping) : Option EventChange :=
  match c, g with
  | none, none => none
  | some ce, none =>
    some { action := .INSERT, event_uid := ce.uid, caldav_event := some ce,
           existing_mapping := m, reason := "New CalDAV event" }
  | none, some ge =>
    some { action := .INSERT, event_uid := optStr ge.uid, google_event := some ge,
           existing_mapping := m, reason := "New Google event" }
  | some ce, some ge => some (analyzeConflictOrUpdate ce ge m)

/-- `EventDiffer._should_sync_to_google`. -/
def shouldSyncToGoogle (direction : String) (ch : EventChange) : Bool :=
  if direction = "google_to_caldav" then false
  else if ch.conflict_resolution = some .CALDAV_WINS then true
  else if ch.conflict_resolution = some .GOOGLE_WINS then false
  else direction = "caldav_to_google" || direction = "bidirectional"

/-- `EventDiffer._should_sync_to_caldav`. -/
def shouldSyncToCaldav (direction : String) (ch : EventChange) : Bool :=
  if direction = "caldav_to_google" then false
  else if ch.conflict_resolution = some .GOOGLE_WINS then true
  else if ch.conflict_resolution = some .CALDAV_WINS then false
  else direction = "google_to_caldav" || direction = "bidirectional"

/-- `google_by_uid`: dict over events with truthy `uid`. -/
def googleByUid (gs : List GoogleCalendarEvent) (k : String) : Option GoogleCalendarEvent :=
  dictFind (fun g => if strTruthy g.uid then g.uid else none) k gs

/-- `google_by_id`: dict over events with truthy `id`. -/
def googleById (gs : List GoogleCalendarEvent) (k : String) : Option GoogleCalendarEvent :=
  dictFind (fun g => if strTruthy g.id then g.id else none) k gs

/-- `mappings_by_caldav_uid` (unfiltered). -/
def mappingsByCaldavUid (ms : List EventMapping) (k : String) : Option EventMapping :=
  dictFind (fun m => some m.caldav_uid) k ms

/-- `mappings_by_google_id`: dict over mappings with truthy `google_event_id`. -/
def mappingsByGoogleId (ms : List EventMapping) (k : String) : Option EventMapping :=
  dictFind (fun m => if strTruthy m.google_event_id then m.google_event_id else none) k ms

/-- The orphaned-mapping DELETE change (`analyze_bidirectional_changes`,
lines 138-148). -/
def orphanChange (m : EventMapping) : EventChange :=
  { action := .DELETE, event_uid := m.caldav_uid, existing_mapping := some m,
    reason := "Event no longer exists in either system" }

/-- Routing of one analysed CalDAV-side pair into the `SyncChanges`
accumulator (`analyze_bidirectional_changes`, lines 105-121). -/
def bidiStep1Changes (direction : String) (gs : List GoogleCalendarEvent)
    (ms : List EventMapping) (sc : SyncChanges) (c : CalDAVEvent) : SyncChanges :=
  let m := mappingsByCaldavUid ms c.uid
  let g0 := googleByUid gs c.uid
  let g :=
    match m with
    | some mm =>
      if strTruthy mm.google_event_id then
        match g0 with
        | some ge => some ge
        | none => googleById gs (optStr mm.google_event_id)
      else g0
    | none => g0
  match analyzeEventPair (some c) g m with
  | none => sc
  | some change =>
    if change.conflict_resolution.isSome then
      { sc with conflicts := sc.conflicts ++ [change] }
    else if change.action ≠ .NO_CHANGE then
      if shouldSyncToGoogle direction change then
        { sc with caldav_to_google := sc.caldav_to_google ++ [change] }
      else if shouldSyncToCaldav direction change then
        { sc with google_to_caldav := sc.google_to_caldav ++ [change] }
      else sc
    else sc

/-- Loop body for CalDAV events in `analyze_bidirectional_changes`.
State: processed UID set (as a list) and the accumulated changes. -/
def bidiStep1 (direction : String) (gs : List GoogleCalendarEvent)
    (ms : List EventMapping) (st : List String × SyncChanges) (c : CalDAVEvent) :
    List String × SyncChanges :=
  if c.uid ∈ st.1 then st
  else (st.1 ++ [c.uid], bidiStep1Changes direction gs ms st.2 c)

/-- Routing of one Google-only event (`analyze_bidirectional_changes`,
lines 130-136). -/
def bidiStep2Changes (direction : String) (ms : List EventMapping)
    (sc : SyncChanges) (g : GoogleCalendarEvent) : SyncChanges :=
  let m := if strTruthy g.id then mappingsByGoogleId ms (optStr g.id) else none
  match analyzeEventPair none (some g) m with
  | none => sc
  | some change =>
    if change.action ≠ .NO_CHANGE && shouldSyncToCaldav direction change then
      { sc with google_to_caldav := sc.google_to_caldav ++ [change] }
    else sc

/-- Loop body for Google events without processed CalDAV counterpart. -/
def bidiStep2 (direction : String) (ms : List EventMapping)
    (st : List String × SyncChanges) (g : GoogleCalendarEvent) :
    List String × SyncChanges :=
  if !strTruthy g.uid || optStr g.uid ∈ st.1 then st
  else (st.1 ++ [optStr g.uid], bidiStep2Changes direction ms st.2 g)

/-- Loop body for orphaned mappings. -/
def bidiOrphanStep (st : List String × SyncChanges) (m : EventMapping) :
    List String × SyncChanges :=
  if m.caldav_uid ∈ st.1 then st
  else (st.1, { st.2 with caldav_to_google := st.2.caldav_to_google ++ [orphanChange m] })

/-- `EventDiffer.analyze_bidirectional_changes`. -/
def analyzeBidirectional (direction : String) (cs : List CalDAVEvent)
    (gs : List GoogleCalendarEvent) (ms : List EventMapping) : SyncChanges :=
  let st1 := cs.foldl (bidiStep1 direction gs ms) ([], ⟨[], [], []⟩)
  let st2 := gs.foldl (bidiStep2 direction ms) st1
  (ms.foldl bidiOrphanStep st2).2

/-- `EventDiffer._analyze_caldav_to_google_change`. -/
def analyzeC2GChange (c : CalDAVEvent) (g : Option GoogleCalendarEvent)
    (m : Option EventMapping) : EventChange :=
  match g with
  | none =>
    { action := .INSERT, event_uid := c.uid, caldav_event := some c,
      existing_mapping := m, reason := "New CalDAV event to sync to Google" }
  | some ge =>
    let tsNoChange :=
      match m with
      | some mm =>
        match mm.last_caldav_modified, c.last_modified with
        | some lm, some cm => decide (cm ≤ lm)
        | _, _ => false
      | none => false
    if tsNoChange then
      { action := .NO_CHANGE, event_uid := c.uid, caldav_event := some c,
        google_event := some ge, existing_mapping := m,
        reason := "No changes in CalDAV event" }
    else
      let ch := caldavContentHash c
      match m with
      | some mm =>
        if mm.event_hash = some ch then
          { action := .NO_CHANGE, event_uid := c.uid, caldav_event := some c,
            google_event := some ge, existing_mapping := m,
            reason := "No content changes detected" }
        else
          { action := .UPDATE, event_uid := c.uid, caldav_event := some c,
            google_event := some ge, existing_mapping := m,
            reason := "CalDAV event updated" }
      | none =>
        { action := .UPDATE, event_uid := c.uid, caldav_event := some c,
          google_event := some ge, existing_mapping := m,
          reason := "CalDAV event updated" }

/-- `EventDiffer.analyze_unidirectional_changes` specialised to the
`caldav_to_google` direction (the shape in which the engine invokes it):
a pass over the source events producing INSERT/UPDATEs, then a pass over
the target events producing DELETEs for tracked events gone from the
source. -/
def analyzeUnidirectionalC2G (src : List CalDAVEvent) (tgt : List GoogleCalendarEvent)
    (ms : List EventMapping) : List EventChange :=
  let part1 := src.filterMap (fun c =>
    if !pyTruthy c.uid then none
    else
      let t := googleByUid tgt c.uid
      let m := mappingsByCaldavUid ms c.uid
      let ch := analyzeC2GChange c t m
      if ch.action = .NO_CHANGE then none else some ch)
  let part2 := tgt.filterMap (fun g =>
    if !strTruthy g.uid then none
    else
      let u := optStr g.uid
      if src.any (fun c => pyTruthy c.uid && c.uid = u) then none
      else
        match mappingsByCaldavUid ms u with
        | none => none
        | some m =>
          some { action := .DELETE, event_uid := u, existing_mapping := some m,
                 reason := "Event deleted from source" })
  part1 ++ part2

/-! ## Sync engine (`app/sync/engine.py`) -/

/-- Final status determination in `SyncEngine.sync_mapping` (lines 118-124). -/
def determineFinalStatus (errorCount inserted updated deleted : Nat) : String :=
  if errorCount = 0 then "success"
  else if inserted + updated + deleted > 0 then "partial_failure"
  else "failure"

/-- An adapter mutation on the Google side. -/
inductive AdapterCall where
  | googleCreate (calId : String) (ev : GoogleCalendarEvent)
  | googleUpdate (calId : String) (ev : GoogleCalendarEvent)
  | googleDelete (calId : String) (eventId : String)
deriving DecidableEq

/-- A write to the persisted `EventMapping` table
(`_update_event_mapping` / `_delete_event_mapping`). -/
inductive MapOp where
  | upsert (mappingId caldavUid : String) (googleEventId : Option String)
      (caldavModified googleUpdated : Option Int) (direction : String) (eventHash : String)
  | remove (rowId : String)
deriving DecidableEq

/-- Observable state accumulated by `_apply_changes_to_google`:
the adapter calls attempted (in order), the event-mapping writes, the
counters and the error messages. -/
structure ApplyState where
  calls : List AdapterCall := []
  mapOps : List MapOp := []
  insertedCount : Nat := 0
  updatedCount : Nat := 0
  deletedCount : Nat := 0
  errorCount : Nat := 0
  errors : List String := []
deriving DecidableEq

def recordApplyError (st : ApplyState) (uid msg : String) : ApplyState :=
  { st with errorCount := st.errorCount + 1,
            errors := st.errors ++ ["Failed to apply change for " ++ uid ++ ": " ++ msg] }

/-- One iteration of the loop in `SyncEngine._apply_changes_to_google`.
`adapter` models the Google client: the `Except` result of each call
(`create`/`update` return the created/updated event; exceptions are
`error`). -/
def applyChangeToGoogle (adapter : AdapterCall → Except String GoogleCalendarEvent)
    (calId mappingId : String) (st : ApplyState) (ch : EventChange) : ApplyState :=
  match ch.action with
  | .INSERT =>
    match ch.caldav_event with
    | none => st
    | some c =>
      match caldavToGoogle c with
      | .error e => recordApplyError st ch.event_uid e
      | .ok gev =>
        let st1 := { st with calls := st.calls ++ [.googleCreate calId gev] }
        match adapter (.googleCreate calId gev) with
        | .error e => recordApplyError st1 ch.event_uid e
        | .ok created =>
          { st1 with
            mapOps := st1.mapOps ++ [.upsert mappingId c.uid created.id
              c.last_modified created.updated "caldav_to_google" (caldavContentHash c)],
            insertedCount := st1.insertedCount + 1 }
  | .UPDATE =>
    match ch.caldav_event, ch.google_event with
    | some c, some g =>
      match caldavToGoogle c with
      | .error e => recordApplyError st ch.event_uid e
      | .ok gev0 =>
        let gev := { gev0 with id := g.id }
        let st1 := { st with calls := st.calls ++ [.googleUpdate calId gev] }
        match adapter (.googleUpdate calId gev) with
        | .error e => recordApplyError st1 ch.event_uid e
        | .ok updated =>
          { st1 with
            mapOps := st1.mapOps ++ [.upsert mappingId c.uid updated.id
              c.last_modified updated.updated "caldav_to_google" (caldavContentHash c)],
            updatedCount := st1.updatedCount + 1 }
    | _, _ => st
  | .DELETE =>
    match ch.existing_mapping with
    | none => st
    | some m =>
      if strTruthy m.google_event_id then
        let gid := optStr m.google_event_id
        let st1 := { st with calls := st.calls ++ [.googleDelete calId gid] }
        match adapter (.googleDelete calId gid) with
        | .error e => recordApplyError st1 ch.event_uid e
        | .ok _ =>
          { st1 with mapOps := st1.mapOps ++ [.remove m.id],
                     deletedCount := st1.deletedCount + 1 }
      else st
  | .NO_CHANGE => st

/-- `SyncEngine._apply_changes_to_google`: fold over the change list. -/
def applyChangesToGoogle (adapter : AdapterCall → Except String GoogleCalendarEvent)
    (calId mappingId : String) (changes : List EventChange) : ApplyState :=
  changes.foldl (applyChangeToGoogle adapter calId mappingId) {}

/-! ## Scheduler (`app/sync/scheduler.py`) -/

/-- A row of the `CalendarMapping` table, reduced to the fields the
scheduler consults. -/
structure MappingRow where
  id : String
  enabled : Bool
deriving DecidableEq

/-- `db.query(CalendarMapping).filter(id == …).first()`. -/
def dbFindMapping (rows : List MappingRow) (i : String) : Option MappingRow :=
  rows.find? (fun r => r.id = i)

/-- `SyncScheduler.trigger_manual_sync`: the value returned to the caller.
`active` is the key set of `self.active_jobs` at call time (the body runs
without suspension points up to `create_task`, so it is atomic on the
event loop). -/
def triggerManualSync (active : List String) (db : List MappingRow) (i : String) : Bool :=
  if i ∈ active then false
  else
    match dbFindMapping db i with
    | none => false
    | some r => if r.enabled then true else false

/-- The atomic check-and-mark prologue of `_sync_mapping_with_lock`
(lines 192-197): acquire the per-mapping slot, or skip. -/
def syncLockAcquire (active : List String) (i : String) : List String × Bool :=
  if i ∈ active then (active, false) else (active ++ [i], true)

/-- `self.active_jobs.pop(mapping_id, None)` in the `finally` block. -/
def syncLockRelease (active : List String) (i : String) : List String :=
  active.filter (fun x => x ≠ i)

/-- Events on the scheduler's `active_jobs` set. -/
inductive SchedStep where
  | acquire (i : String)
  | release (i : String)

def schedStepRun (active : List String) : SchedStep → List String
  | .acquire i => (syncLockAcquire active i).1
  | .release i => syncLockRelease active i

/-- The `active_jobs` key set after a sequence of lock events. -/
def runSchedSteps (steps : List SchedStep) : List String :=
  steps.foldl schedStepRun []

/-! ## Webhook pipeline (`app/sync/webhook.py`, `app/config.py`) -/

/-- `WebhookSettings.retry_delays` default. -/
def webhookRetryDelays : List Int := [30, 300, 1800]

/-- `WebhookSettings.max_retries` default. -/
def webhookMaxRetries : Nat := 3

/-- A `WebhookRetry` row. -/
structure WebhookRetryRow where
  sync_log_id : String
  webhook_url : String
  payload : String
  attempt_count : Nat
  max_attempts : Nat
  next_retry_at : Int
  last_error : Option String := none
deriving DecidableEq

/-- `WebhookClient.send_webhook` outcome: `true` iff the POST returned a
2xx status.  `none` models a transport error/timeout (the `except`
branches), which also yields `false`. -/
def sendWebhookOutcome (status : Option Nat) : Bool :=
  match status with
  | some n => 200 ≤ n && n < 300
  | none => false

/-- `WebhookClient.queue_webhook_retry` (with default settings):
the row created, or `none` when `attempt >= max_retries`. -/
def queueWebhookRetry (now : Int) (url payload syncLogId : String) (attempt : Nat) :
    Option WebhookRetryRow :=
  if attempt ≥ webhookMaxRetries then none
  else
    let delay := webhookRetryDelays.get! (min attempt (webhookRetryDelays.length - 1))
    some { sync_log_id := syncLogId, webhook_url := url, payload := payload,
           attempt_count := attempt, max_attempts := webhookMaxRetries,
           next_retry_at := now + delay }

/-- The enqueue decision of `WebhookClient.send_sync_result_webhook`:
a retry row is queued exactly when a webhook URL is configured and the
delivery did not succeed. -/
def sendSyncResultRetry (now : Int) (webhookUrl : Option String)
    (payload syncLogId : String) (status : Option Nat) : Option WebhookRetryRow :=
  if !strTruthy webhookUrl then none
  else if sendWebhookOutcome status then none
  else queueWebhookRetry now (optStr webhookUrl) payload syncLogId 0

/-- Selection predicate of `process_webhook_retries`:
`next_retry_at <= now` and `attempt_count < max_attempts`. -/
def retryDue (now : Int) (r : WebhookRetryRow) : Bool :=
  decide (r.next_retry_at ≤ now) && decide (r.attempt_count < r.max_attempts)

/-- Processing of one selected row in `process_webhook_retries`:
`success` is the delivery outcome; the result is the row's new state
(`none` = deleted). -/
def processRetryRow (now : Int) (success : Bool) (r : WebhookRetryRow) :
    Option WebhookRetryRow :=
  if success then none
  else
    let ac := r.attempt_count + 1
    if ac < r.max_attempts then
      let di := min ac (webhookRetryDelays.length - 1)
      some { r with attempt_count := ac,
                    last_error := some ("Retry attempt " ++ toString ac ++ " failed"),
                    next_retry_at := now + webhookRetryDelays.get! di }
    else
      some { r with attempt_count := ac,
                    last_error := some ("Max retry attempts (" ++ toString r.max_attempts ++ ") reached") }

/-- One pass of the retry processor over the table: due rows are attempted
(`outcome` gives each row's delivery result), other rows are untouched. -/
def processWebhookRetries (now : Int) (outcome : WebhookRetryRow → Bool)
    (rows : List WebhookRetryRow) : List WebhookRetryRow :=
  rows.filterMap (fun r => if retryDue now r then processRetryRow now (outcome r) r else some r)


/-! ## Theorems -/

/-- The Google constructor never changes the `status` field. -/
theorem mkGoogleEvent_status (e g : GoogleCalendarEvent)
    (h : mkGoogleEvent e = Except.ok g) : g.status = e.status := by
  unfold mkGoogleEvent at h
  split at h
  · exact absurd h (by simp)
  split at h
  · exact absurd h (by simp)
  injection h with h
  subst h
  rfl

/-- C10: the event produced by `caldav_to_google` always carries status
"confirmed"; the source event's state is never propagated. -/
theorem normalizer_status_confirmed (c : CalDAVEvent) (g : GoogleCalendarEvent)
    (h : caldavToGoogle c = Except.ok g) : g.status = "confirmed" := by
  unfold caldavToGoogle at h
  cases hmk : mkGoogleEvent (caldavToGoogleRaw c) with
  | ok g2 =>
    rw [hmk] at h
    injection h with h
    subst h
    exact mkGoogleEvent_status _ _ hmk
  | error e =>
    rw [hmk] at h
    exact absurd h (by simp)

/-- Concrete input for the C10 witness. -/
def witC10c : CalDAVEvent := { uid := "u", summary := "s", all_day := true }

def witC10g : GoogleCalendarEvent :=
  { id := none, uid := some "u", summary := "s", all_day := true, status := "confirmed" }

/-- Witness for `normalizer_status_confirmed`. -/
theorem normalizer_status_confirmed_witness : witC10g.status = "confirmed" :=
  normalizer_status_confirmed witC10c witC10g rfl

/-- C4: for every completed sync run, the final status is `success` iff
`error_count == 0`; otherwise `partial_failure` when at least one change
succeeded (a nonzero inserted/updated/deleted counter) and at least one
failed, and `failure` when no change succeeded. -/
theorem sync_final_status (e i u d : Nat) :
    (e = 0 → determineFinalStatus e i u d = "success") ∧
    (e ≠ 0 → 0 < i + u + d → determineFinalStatus e i u d = "partial_failure") ∧
    (e ≠ 0 → i + u + d = 0 → determineFinalStatus e i u d = "failure") := by
  refine ⟨fun h1 => by simp [determineFinalStatus, h1],
          fun h1 h2 => by simp [determineFinalStatus, h1, h2],
          fun h1 h2 => by simp [determineFinalStatus, h1, h2]⟩

/-- Witness for `sync_final_status` at a concrete run. -/
theorem sync_final_status_witness :
    determineFinalStatus 2 1 0 0 = "partial_failure" :=
  (sync_final_status 2 1 0 0).2.1 (by decide) (by decide)

/-- C2: the conflict resolver returns the side with the strictly newer
timestamp when both are present and unequal, CALDAV_WINS on equality,
the side having a timestamp when only one is present, and CALDAV_WINS
with a warning log carrying the event UID when neither is present. -/
theorem conflict_resolver_lww (c : CalDAVEvent) (g : GoogleCalendarEvent) :
    (∀ x y, c.last_modified = some x → g.updated = some y → x ≠ y →
      (resolveConflict c g).1 =
        (if x > y then ConflictResolution.CALDAV_WINS else ConflictResolution.GOOGLE_WINS)) ∧
    (∀ x y, c.last_modified = some x → g.updated = some y → x = y →
      (resolveConflict c g).1 = ConflictResolution.CALDAV_WINS) ∧
    (∀ x, c.last_modified = some x → g.updated = none →
      (resolveConflict c g).1 = ConflictResolution.CALDAV_WINS) ∧
    (∀ y, c.last_modified = none → g.updated = some y →
      (resolveConflict c g).1 = ConflictResolution.GOOGLE_WINS) ∧
    (c.last_modified = none → g.updated = none →
      resolveConflict c g = (ConflictResolution.CALDAV_WINS, [conflictWarningMsg c.uid])) ∧
    (∃ pre post : String, conflictWarningMsg c.uid = pre ++ c.uid ++ post) := by
  refine ⟨?_, ?_, ?_, ?_, ?_, ?_⟩
  · intro x y hx hy hne
    simp only [resolveConflict, hx, hy]
    rcases lt_trichotomy y x with h | h | h
    · simp [h]
    · exact absurd h.symm hne
    · simp [h, not_lt_of_gt h]
  · intro x y hx hy he
    subst he
    simp [resolveConflict, hx, hy]
  · intro x hx hy
    simp [resolveConflict, hx, hy]
  · intro y hx hy
    simp [resolveConflict, hx, hy]
  · intro hx hy
    simp [resolveConflict, hx, hy]
  · exact ⟨"Conflict resolution fallback: both events missing timestamps for UID ",
          ", defaulting to CalDAV source", rfl⟩

/-- Concrete events for the conflict-resolution witness. -/
def witC2c : CalDAVEvent := { uid := "w", summary := "s", all_day := true, last_modified := some 5 }

def witC2g : GoogleCalendarEvent := { uid := some "w", summary := "s", all_day := true, updated := some 9 }

/-- Witness for `conflict_resolver_lww`: Google strictly newer wins. -/
theorem conflict_resolver_lww_witness :
    (resolveConflict witC2c witC2g).1 = ConflictResolution.GOOGLE_WINS := by
  have h := (conflict_resolver_lww witC2c witC2g).1 5 9 rfl rfl (by decide)
  simpa using h

/-- C3 counterexample: `trigger_manual_sync` returns `false` for a mapping
id with no active run when the mapping does not exist in the database, so
"returns false if and only if a sync run is already active" is false. -/
theorem trigger_manual_cex :
    triggerManualSync [] [] "m1" = false ∧ "m1" ∉ ([] : List String) := by
  exact ⟨rfl, by simp⟩

/-- Per-id count of the active set never exceeds 1 along any event
sequence, because the check-and-mark in `_sync_mapping_with_lock` is
atomic on the event loop. -/
theorem schedSteps_count_le_one (steps : List SchedStep) (i : String) :
    (runSchedSteps steps).count i ≤ 1 := by
  suffices h : ∀ (active : List String), active.count i ≤ 1 →
      (steps.foldl schedStepRun active).count i ≤ 1 by
    exact h [] (by simp)
  induction steps with
  | nil => intro active h; simpa using h
  | cons s rest ih =>
    intro active h
    simp only [List.foldl_cons]
    apply ih
    cases s with
    | acquire j =>
      simp only [schedStepRun, syncLockAcquire]
      split
      · exact h
      · next hj =>
        rcases eq_or_ne i j with rfl | hij
        · simp [List.count_append, List.count_eq_zero.mpr hj]
        · simpa [List.count_append, List.count_singleton', hij] using h
    | release j =>
      simp only [schedStepRun, syncLockRelease]
      exact le_trans (List.Sublist.count_le (List.filter_sublist _) i) h

/-- C3 (amended): `trigger_manual_sync` returns `false` iff a run is
already active for the id, the mapping does not exist, or the mapping is
disabled; and the per-mapping lock keeps at most one run for an id in
flight at any instant. -/
theorem trigger_manual_amended :
    (∀ (active : List String) (db : List MappingRow) (i : String),
      triggerManualSync active db i = false ↔
        (i ∈ active ∨ dbFindMapping db i = none ∨
         ∃ r, dbFindMapping db i = some r ∧ r.enabled = false)) ∧
    (∀ (steps : List SchedStep) (i : String), (runSchedSteps steps).count i ≤ 1) := by
  constructor
  · intro active db i
    unfold triggerManualSync
    split
    · next hmem => simp [hmem]
    · next hmem =>
      cases hdb : dbFindMapping db i with
      | none => simp [hmem, hdb]
      | some r =>
        cases hr : r.enabled <;> simp [hmem, hdb, hr]
  · exact schedSteps_count_le_one

/-- A due retry row at its last allowed attempt. -/
def cexRetryRow : WebhookRetryRow :=
  { sync_log_id := "l", webhook_url := "u", payload := "p",
    attempt_count := 2, max_attempts := 3, next_retry_at := 0 }

/-- C9 counterexample: a selected row (due, `attempt_count = 2 < 3`) that
fails is *not* rescheduled — its `next_retry_at` stays 0 instead of
becoming `now + delays[min(attempt, len(delays)-1)] = 100 + 1800`. -/
theorem webhook_retry_cex :
    retryDue 100 cexRetryRow = true ∧
    (processRetryRow 100 false cexRetryRow).map (fun r => r.next_retry_at) = some 0 ∧
    (0 : Int) ≠ 100 + webhookRetryDelays.get! (min 3 (webhookRetryDelays.length - 1)) := by
  refine ⟨rfl, rfl, by decide⟩

/-- C9 (amended): the pipeline enqueues a retry with `attempt = 0` and
`next_retry_at = now + delays[0]` on any non-2xx or transport failure; the
processor selects exactly the rows with `next_retry_at ≤ now` and
`attempt_count < max_attempts`; a successful delivery deletes the row; a
failed delivery increments `attempt_count` and reschedules
`next_retry_at = now + delays[min(attempt_count, len(delays)-1)]`
*provided* the incremented count is still below `max_attempts` (otherwise
the row is marked failed and keeps its old `next_retry_at`); defaults are
`delays = [30 s, 5 min, 30 min]`, `max_attempts = 3`. -/
theorem webhook_retry_amended :
    (∀ (now : Int) (url payload sid : String) (status : Option Nat),
      url ≠ "" → sendWebhookOutcome status = false →
      sendSyncResultRetry now (some url) payload sid status =
        some { sync_log_id := sid, webhook_url := url, payload := payload,
               attempt_count := 0, max_attempts := 3, next_retry_at := now + 30 }) ∧
    (∀ (now : Int) (r : WebhookRetryRow),
      retryDue now r = true ↔ r.next_retry_at ≤ now ∧ r.attempt_count < r.max_attempts) ∧
    (∀ (now : Int) (outcome : WebhookRetryRow → Bool) (rows : List WebhookRetryRow)
        (r : WebhookRetryRow), r ∈ rows → retryDue now r = false →
      r ∈ processWebhookRetries now outcome rows) ∧
    (∀ (now : Int) (r : WebhookRetryRow), processRetryRow now true r = none) ∧
    (∀ (now : Int) (r : WebhookRetryRow), r.attempt_count + 1 < r.max_attempts →
      processRetryRow now false r =
        some { r with
               attempt_count := r.attempt_count + 1,
               last_error := some ("Retry attempt " ++ toString (r.attempt_count + 1) ++ " failed"),
               next_retry_at := now + webhookRetryDelays.get!
                 (min (r.attempt_count + 1) (webhookRetryDelays.length - 1)) }) ∧
    (webhookRetryDelays = [30, 300, 1800] ∧ webhookMaxRetries = 3) := by
  refine ⟨?_, ?_, ?_, ?_, ?_, rfl, rfl⟩
  · intro now url payload sid status hu hs
    simp [sendSyncResultRetry, strTruthy, hu, hs, queueWebhookRetry, webhookMaxRetries,
          webhookRetryDelays, optStr]
  · intro now r
    simp [retryDue]
  · intro now outcome rows r hmem hdue
    unfold processWebhookRetries
    exact List.mem_filterMap.mpr ⟨r, hmem, by simp [hdue]⟩
  · intro now r
    simp [processRetryRow]
  · intro now r h
    simp [processRetryRow, h]

/-- Witness for `webhook_retry_amended`: a failed first delivery enqueues
`attempt = 0`, `next_retry_at = now + 30`, and a failed first retry is
rescheduled with the second delay. -/
theorem webhook_retry_amended_witness :
    sendSyncResultRetry 1000 (some "http://w") "pl" "log1" (some 500) =
      some { sync_log_id := "log1", webhook_url := "http://w", payload := "pl",
             attempt_count := 0, max_attempts := 3, next_retry_at := 1030 } ∧
    processRetryRow 1000 false
        { sync_log_id := "log1", webhook_url := "http://w", payload := "pl",
          attempt_count := 0, max_attempts := 3, next_retry_at := 900 } =
      some { sync_log_id := "log1", webhook_url := "http://w", payload := "pl",
             attempt_count := 1, last_error := some "Retry attempt 1 failed",
             max_attempts := 3, next_retry_at := 1300 } := by
  constructor
  · have h := webhook_retry_amended.1 1000 "http://w" "pl" "log1" (some 500)
      (by decide) (by decide)
    simpa using h
  · have h := webhook_retry_amended.2.2.2.2.1 1000
      { sync_log_id := "log1", webhook_url := "http://w", payload := "pl",
        attempt_count := 0, max_attempts := 3, next_retry_at := 900 } (by decide)
    simpa using h

/-- Rank of an action in the order claimed by the specification
(all INSERTs, then UPDATEs, then DELETEs). -/
def actionRank : ChangeAction → Nat
  | .INSERT => 0
  | .UPDATE => 1
  | .DELETE => 2
  | .NO_CHANGE => 3

/-- The stable order the specification claims: actions grouped
INSERT → UPDATE → DELETE, each group sorted by UID. -/
def stableOrderOK : List EventChange → Bool
  | [] => true
  | [_] => true
  | a :: b :: rest =>
    (decide (actionRank a.action < actionRank b.action) ||
     (decide (actionRank a.action = actionRank b.action) &&
      decide (a.event_uid ≤ b.event_uid))) &&
    stableOrderOK (b :: rest)

def cexC6src1 : CalDAVEvent := { uid := "a", summary := "s", all_day := true }

def cexC6src2 : CalDAVEvent := { uid := "b", summary := "s", all_day := true }

def cexC6tgt : GoogleCalendarEvent := { uid := some "a", summary := "s", all_day := true }

/-- C6 counterexample: the differ output for a fetch where the first
source event needs an UPDATE and the second an INSERT is
`[UPDATE "a", INSERT "b"]` — inserts do not come first, so changes are
not applied in the claimed stable order. -/
theorem apply_order_cex :
    (analyzeUnidirectionalC2G [cexC6src1, cexC6src2] [cexC6tgt] []).map (fun ch => ch.action) =
      [ChangeAction.UPDATE, ChangeAction.INSERT] ∧
    stableOrderOK (analyzeUnidirectionalC2G [cexC6src1, cexC6src2] [cexC6tgt] []) = false := by
  exact ⟨by decide, by decide⟩

/-- `_analyze_caldav_to_google_change` never produces a DELETE. -/
theorem analyzeC2GChange_ne_delete (c : CalDAVEvent) (g : Option GoogleCalendarEvent)
    (m : Option EventMapping) : (analyzeC2GChange c g m).action ≠ ChangeAction.DELETE := by
  unfold analyzeC2GChange
  rcases g with _ | ge
  · simp
  · dsimp only
    split
    · simp
    · rcases m with _ | mm
      · simp
      · dsimp only
        split <;> simp

/-- Each loop iteration of `_apply_changes_to_google` appends its adapter
calls to the state's call list; the appended calls do not depend on the
state. -/
theorem applyChangeToGoogle_calls_append
    (adapter : AdapterCall → Except String GoogleCalendarEvent)
    (calId mappingId : String) (st : ApplyState) (ch : EventChange) :
    (applyChangeToGoogle adapter calId mappingId st ch).calls =
      st.calls ++ (applyChangeToGoogle adapter calId mappingId {} ch).calls := by
  unfold applyChangeToGoogle
  cases ch.action with
  | INSERT =>
    dsimp only
    rcases ch.caldav_event with _ | c
    · simp
    · dsimp only
      cases hconv : caldavToGoogle c with
      | error e => simp [recordApplyError]
      | ok gev =>
        dsimp only
        cases hada : adapter (.googleCreate calId gev) with
        | error e => simp [recordApplyError]
        | ok created => simp
  | UPDATE =>
    dsimp only
    rcases ch.caldav_event with _ | c <;> rcases ch.google_event with _ | g
    · simp
    · simp
    · simp
    · dsimp only
      cases hconv : caldavToGoogle c with
      | error e => simp [recordApplyError]
      | ok gev0 =>
        dsimp only
        cases hada : adapter (.googleUpdate calId { gev0 with id := g.id }) with
        | error e => simp [recordApplyError]
        | ok updated => simp
  | DELETE =>
    dsimp only
    rcases ch.existing_mapping with _ | m
    · simp
    · dsimp only
      cases hg : strTruthy m.google_event_id with
      | false => simp [hg]
      | true =>
        simp only [hg, if_true]
        cases hada : adapter (.googleDelete calId (optStr m.google_event_id)) with
        | error e => simp [recordApplyError]
        | ok u => simp
  | NO_CHANGE => simp

/-- The call sequence of a whole apply run is the concatenation, in list
order, of each change's calls. -/
theorem applyChangesToGoogle_calls
    (adapter : AdapterCall → Except String GoogleCalendarEvent)
    (calId mappingId : String) (changes : List EventChange) :
    (applyChangesToGoogle adapter calId mappingId changes).calls =
      changes.flatMap (fun ch => (applyChangeToGoogle adapter calId mappingId {} ch).calls) := by
  suffices h : ∀ (st : ApplyState),
      (changes.foldl (applyChangeToGoogle adapter calId mappingId) st).calls =
        st.calls ++ changes.flatMap
          (fun ch => (applyChangeToGoogle adapter calId mappingId {} ch).calls) by
    simpa [applyChangesToGoogle] using h {}
  induction changes with
  | nil => intro st; simp
  | cons ch rest ih =>
    intro st
    simp only [List.foldl_cons, List.flatMap_cons, ih,
      applyChangeToGoogle_calls_append adapter calId mappingId st ch]
    simp [List.append_assoc]

/-- C6 (amended): inside one run the changes are applied exactly in the
differ's output order: first the source-scan results (INSERTs and UPDATEs
interleaved, in source fetch order), then DELETEs for tracked target
events, in target fetch order; no sorting by UID happens; the adapter call
sequence follows the change list order. -/
theorem apply_order_amended :
    (∀ (src : List CalDAVEvent) (tgt : List GoogleCalendarEvent) (ms : List EventMapping),
      ∃ l1 l2, analyzeUnidirectionalC2G src tgt ms = l1 ++ l2 ∧
        (∀ ch ∈ l1, ch.action = ChangeAction.INSERT ∨ ch.action = ChangeAction.UPDATE) ∧
        (∀ ch ∈ l2, ch.action = ChangeAction.DELETE)) ∧
    (∀ (adapter : AdapterCall → Except String GoogleCalendarEvent)
        (calId mappingId : String) (changes : List EventChange),
      (applyChangesToGoogle adapter calId mappingId changes).calls =
        changes.flatMap (fun ch => (applyChangeToGoogle adapter calId mappingId {} ch).calls)) := by
  constructor
  · intro src tgt ms
    refine ⟨_, _, rfl, ?_, ?_⟩
    · intro ch hch
      rcases List.mem_filterMap.mp hch with ⟨c, _, hc⟩
      dsimp only at hc
      split at hc
      · exact absurd hc (by simp)
      · split at hc
        · next hno =>
          exact absurd hc (by simp)
        · next hno =>
          injection hc with hc
          subst hc
          have hd := analyzeC2GChange_ne_delete c (googleByUid tgt c.uid) (mappingsByCaldavUid ms c.uid)
          cases hact : (analyzeC2GChange c (googleByUid tgt c.uid) (mappingsByCaldavUid ms c.uid)).action
          · exact Or.inl rfl
          · exact Or.inr rfl
          · exact absurd hact hd
          · exact absurd hact hno
    · intro ch hch
      rcases List.mem_filterMap.mp hch with ⟨g, _, hg⟩
      dsimp only at hg
      split at hg
      · exact absurd hg (by simp)
      · split at hg
        · exact absurd hg (by simp)
        · split at hg
          · exact absurd hg (by simp)
          · injection hg with hg
            subst hg
            rfl
  · exact applyChangesToGoogle_calls

/-- Witness for `apply_order_amended` at the concrete counterexample
input: the split exists there too. -/
theorem apply_order_amended_witness :
    ∃ l1 l2, analyzeUnidirectionalC2G [cexC6src1, cexC6src2] [cexC6tgt] [] = l1 ++ l2 ∧
      (∀ ch ∈ l1, ch.action = ChangeAction.INSERT ∨ ch.action = ChangeAction.UPDATE) ∧
      (∀ ch ∈ l2, ch.action = ChangeAction.DELETE) :=
  apply_order_amended.1 [cexC6src1, cexC6src2] [cexC6tgt] []

/-- CalDAV event with a recurrence rule, for the C7 counterexample. -/
def cexC7c : CalDAVEvent :=
  { uid := "u", summary := "s", all_day := true, rrule := some "FREQ=DAILY" }

/-- The same semantic content in Google form (exactly the normalizer image
of `cexC7c`). -/
def cexC7g : GoogleCalendarEvent :=
  { id := none, uid := some "u", summary := "s", all_day := true,
    recurrence := some ["RRULE:FREQ=DAILY"], status := "confirmed" }

/-- C7 counterexample: a recurring event with identical semantic content
on the two sides (the Google side is literally `caldav_to_google` of the
CalDAV side) hashes differently, because the CalDAV hash covers the bare
`rrule` string while the Google hash covers the `RRULE:`-prefixed
recurrence entries. -/
theorem content_hash_cex :
    caldavToGoogle cexC7c = Except.ok cexC7g ∧
    caldavContentHash cexC7c ≠ googleContentHash cexC7g := by
  exact ⟨rfl, by decide⟩

/-- C7 (amended): both content hashes are SHA-256 of the fixed
`"|"`-delimited concatenation of exactly the ten listed fields — events
differing only outside those fields hash identically on either side — and
two events with identical semantic content on the two sides have equal
hashes *provided* the event carries no recurrence rule (the two sides
serialise recurrence differently, see `content_hash_cex`). -/
theorem content_hash_amended :
    (∀ (c : CalDAVEvent) (g : GoogleCalendarEvent),
      c.uid = optStr g.uid → c.summary = g.summary →
      optStr c.description = optStr g.description →
      optStr c.location = optStr g.location →
      c.start = g.start → c.end_ = g.end_ →
      c.all_day = g.all_day → optStr c.timezone = optStr g.timezone →
      c.rrule = none → (g.recurrence = none ∨ g.recurrence = some []) →
      optStr c.recurrence_id = optStr g.recurring_event_id →
      caldavContentHash c = googleContentHash g) ∧
    (∀ c₁ c₂ : CalDAVEvent,
      c₁.uid = c₂.uid → c₁.summary = c₂.summary →
      c₁.description = c₂.description → c₁.location = c₂.location →
      c₁.start = c₂.start → c₁.end_ = c₂.end_ →
      c₁.all_day = c₂.all_day → c₁.timezone = c₂.timezone →
      c₁.rrule = c₂.rrule → c₁.recurrence_id = c₂.recurrence_id →
      caldavContentHash c₁ = caldavContentHash c₂) ∧
    (∀ g₁ g₂ : GoogleCalendarEvent,
      g₁.uid = g₂.uid → g₁.summary = g₂.summary →
      g₁.description = g₂.description → g₁.location = g₂.location →
      g₁.start = g₂.start → g₁.end_ = g₂.end_ →
      g₁.all_day = g₂.all_day → g₁.timezone = g₂.timezone →
      g₁.recurrence = g₂.recurrence → g₁.recurring_event_id = g₂.recurring_event_id →
      googleContentHash g₁ = googleContentHash g₂) := by
  refine ⟨?_, ?_, ?_⟩
  · intro c g h1 h2 h3 h4 h5 h6 h7 h8 h9 h10 h11
    have hrec : String.intercalate "|" (g.recurrence.getD []) = "" := by
      rcases h10 with h10 | h10 <;> rw [h10] <;> rfl
    unfold caldavContentHash googleContentHash
    rw [h1, h2, h3, h4, h5, h6, h7, h8, h9, h11, hrec]
    rfl
  · intro c₁ c₂ h1 h2 h3 h4 h5 h6 h7 h8 h9 h10
    unfold caldavContentHash
    rw [h1, h2, h3, h4, h5, h6, h7, h8, h9, h10]
  · intro g₁ g₂ h1 h2 h3 h4 h5 h6 h7 h8 h9 h10
    unfold googleContentHash
    rw [h1, h2, h3, h4, h5, h6, h7, h8, h9, h10]

/-- Witness for `content_hash_amended`: a rrule-free pair with identical
content hashes identically across the two sides. -/
theorem content_hash_amended_witness :
    caldavContentHash { uid := "u", summary := "s", all_day := true } =
    googleContentHash { uid := some "u", summary := "s", all_day := true } :=
  content_hash_amended.1 { uid := "u", summary := "s", all_day := true }
    { uid := some "u", summary := "s", all_day := true }
    rfl rfl rfl rfl rfl rfl rfl rfl rfl (Or.inl rfl) rfl

/-- The first bidirectional loop only ever adds the current event's UID to
the processed set. -/
theorem bidiStep1_processed (direction : String) (gs : List GoogleCalendarEvent)
    (ms : List EventMapping) (st : List String × SyncChanges) (c : CalDAVEvent)
    (x : String) (h : x ∈ (bidiStep1 direction gs ms st c).1) :
    x ∈ st.1 ∨ x = c.uid := by
  unfold bidiStep1 at h
  split at h
  · exact Or.inl h
  · rcases List.mem_append.mp h with h | h
    · exact Or.inl h
    · exact Or.inr (List.mem_singleton.mp h)

/-- The second bidirectional loop only ever adds the current Google
event's UID to the processed set. -/
theorem bidiStep2_processed (direction : String) (ms : List EventMapping)
    (st : List String × SyncChanges) (g : GoogleCalendarEvent)
    (x : String) (h : x ∈ (bidiStep2 direction ms st g).1) :
    x ∈ st.1 ∨ x = optStr g.uid := by
  unfold bidiStep2 at h
  split at h
  · exact Or.inl h
  · rcases List.mem_append.mp h with h | h
    · exact Or.inl h
    · exact Or.inr (List.mem_singleton.mp h)

/-- After the CalDAV loop, every processed UID came from the initial set
or from a CalDAV event. -/
theorem bidiFold1_processed (direction : String) (gs : List GoogleCalendarEvent)
    (ms : List EventMapping) (cs : List CalDAVEvent) :
    ∀ (st : List String × SyncChanges) (x : String),
      x ∈ (cs.foldl (bidiStep1 direction gs ms) st).1 →
      x ∈ st.1 ∨ x ∈ cs.map (fun c => c.uid) := by
  induction cs with
  | nil => intro st x h; exact Or.inl h
  | cons c rest ih =>
    intro st x h
    rcases ih _ x h with h' | h'
    · rcases bidiStep1_processed direction gs ms st c x h' with h'' | h''
      · exact Or.inl h''
      · exact Or.inr (by simp [h''])
    · exact Or.inr (by simp [h'])

/-- After the Google loop, every processed UID came from the prior set or
from a Google event. -/
theorem bidiFold2_processed (direction : String) (ms : List EventMapping)
    (gs : List GoogleCalendarEvent) :
    ∀ (st : List String × SyncChanges) (x : String),
      x ∈ (gs.foldl (bidiStep2 direction ms) st).1 →
      x ∈ st.1 ∨ x ∈ gs.map (fun g => optStr g.uid) := by
  induction gs with
  | nil => intro st x h; exact Or.inl h
  | cons g rest ih =>
    intro st x h
    rcases ih _ x h with h' | h'
    · rcases bidiStep2_processed direction ms st g x h' with h'' | h''
      · exact Or.inl h''
      · exact Or.inr (by simp [h''])
    · exact Or.inr (by simp [h'])

/-- The orphan loop never touches the processed set. -/
theorem bidiOrphanStep_processed (st : List String × SyncChanges) (m : EventMapping) :
    (bidiOrphanStep st m).1 = st.1 := by
  unfold bidiOrphanStep
  split <;> rfl

/-- The orphan loop only appends to `caldav_to_google`. -/
theorem bidiOrphanFold_mono (ms : List EventMapping) :
    ∀ (st : List String × SyncChanges) (ch : EventChange),
      ch ∈ st.2.caldav_to_google →
      ch ∈ (ms.foldl bidiOrphanStep st).2.caldav_to_google := by
  induction ms with
  | nil => intro st ch h; exact h
  | cons m rest ih =>
    intro st ch h
    apply ih
    unfold bidiOrphanStep
    split
    · exact h
    · exact List.mem_append_left _ h

/-- A mapping whose UID is not in the processed set contributes its DELETE
change to the output of the orphan loop. -/
theorem bidiOrphanFold_mem (ms : List EventMapping) :
    ∀ (st : List String × SyncChanges) (m : EventMapping), m ∈ ms →
      m.caldav_uid ∉ st.1 →
      orphanChange m ∈ (ms.foldl bidiOrphanStep st).2.caldav_to_google := by
  induction ms with
  | nil => intro st m h; exact absurd h (List.not_mem_nil m)
  | cons m0 rest ih =>
    intro st m hmem hnp
    simp only [List.foldl_cons]
    rcases List.mem_cons.mp hmem with rfl | hmem'
    · apply bidiOrphanFold_mono
      unfold bidiOrphanStep
      split
      · next hc => exact absurd hc hnp
      · exact List.mem_append_right _ (List.mem_singleton.mpr rfl)
    · apply ih _ m hmem'
      rw [bidiOrphanStep_processed]
      exact hnp

/-- C5 (amended): a persisted mapping whose UID is absent from both
fetched sides yields a DELETE change routed to the Google side; applying
that change attempts a Google `delete_event` call and removes the
persisted mapping when the mapping holds a (truthy) `google_event_id`,
and does nothing at all — the mapping is retained — when it holds none. -/
theorem orphan_mapping_amended :
    (∀ (direction : String) (cs : List CalDAVEvent) (gs : List GoogleCalendarEvent)
        (ms : List EventMapping) (m : EventMapping), m ∈ ms →
      m.caldav_uid ∉ cs.map (fun c => c.uid) →
      m.caldav_uid ∉ gs.map (fun g => optStr g.uid) →
      orphanChange m ∈ (analyzeBidirectional direction cs gs ms).caldav_to_google) ∧
    (∀ (adapter : AdapterCall → Except String GoogleCalendarEvent)
        (calId mappingId : String) (st : ApplyState) (m : EventMapping)
        (gid : String) (ev : GoogleCalendarEvent),
      m.google_event_id = some gid → gid ≠ "" →
      adapter (AdapterCall.googleDelete calId gid) = Except.ok ev →
      applyChangeToGoogle adapter calId mappingId st (orphanChange m) =
        { st with calls := st.calls ++ [AdapterCall.googleDelete calId gid],
                  mapOps := st.mapOps ++ [MapOp.remove m.id],
                  deletedCount := st.deletedCount + 1 }) ∧
    (∀ (adapter : AdapterCall → Except String GoogleCalendarEvent)
        (calId mappingId : String) (st : ApplyState) (m : EventMapping),
      strTruthy m.google_event_id = false →
      applyChangeToGoogle adapter calId mappingId st (orphanChange m) = st) := by
  refine ⟨?_, ?_, ?_⟩
  · intro direction cs gs ms m hm hcs hgs
    unfold analyzeBidirectional
    apply bidiOrphanFold_mem ms _ m hm
    intro hin
    rcases bidiFold2_processed direction ms gs _ _ hin with h | h
    · rcases bidiFold1_processed direction gs ms cs _ _ h with h' | h'
      · exact absurd h' (List.not_mem_nil _)
      · exact hcs h'
    · exact hgs h
  · intro adapter calId mappingId st m gid ev hgid hne hada
    unfold applyChangeToGoogle orphanChange
    dsimp only
    rw [hgid]
    have ht : strTruthy (some gid) = true := by simp [strTruthy, hne]
    rw [ht]
    simp only [if_true, optStr]
    rw [hada]
  · intro adapter calId mappingId st m hfalse
    unfold applyChangeToGoogle orphanChange
    dsimp only
    rw [hfalse]
    simp

/-- Witness for `orphan_mapping_amended` at a concrete orphaned mapping. -/
theorem orphan_mapping_amended_witness :
    orphanChange { id := "em1", mapping_id := "m1", caldav_uid := "u1",
                   google_event_id := some "g1" } ∈
      (analyzeBidirectional "bidirectional" [] []
        [{ id := "em1", mapping_id := "m1", caldav_uid := "u1",
           google_event_id := some "g1" }]).caldav_to_google :=
  orphan_mapping_amended.1 "bidirectional" [] []
    [{ id := "em1", mapping_id := "m1", caldav_uid := "u1", google_event_id := some "g1" }]
    { id := "em1", mapping_id := "m1", caldav_uid := "u1", google_event_id := some "g1" }
    (List.mem_singleton.mpr rfl) (by simp) (by simp)

/-- The orphaned mapping of the C5 counterexample. -/
def cexOrphanMapping : EventMapping :=
  { id := "em1", mapping_id := "m1", caldav_uid := "u1", google_event_id := some "g1" }

/-- A Google adapter that accepts every call. -/
def cexAdapterOk : AdapterCall → Except String GoogleCalendarEvent :=
  fun _ => Except.ok {}

/-- C5 counterexample: for a persisted mapping whose UID is on neither
side, the sync *does* attempt an adapter mutation — a Google
`delete_event` call — so "no adapter mutation is attempted" is false. -/
theorem orphan_mapping_cex :
    (applyChangesToGoogle cexAdapterOk "cal" "m1"
        (analyzeBidirectional "bidirectional" [] [] [cexOrphanMapping]).caldav_to_google).calls =
      [AdapterCall.googleDelete "cal" "g1"] ∧
    [AdapterCall.googleDelete "cal" "g1"] ≠ ([] : List AdapterCall) := by
  exact ⟨by decide, by decide⟩

/-- The `(caldav_changed, google_changed)` pair exactly as the
specification phrases the change test: each side's timestamp test is
`(persisted timestamp is null) ∨ (event timestamp > persisted timestamp)`,
with a fallback to comparing each side's content hash against the
persisted `content_hash` when neither timestamp indicates change. -/
def changedPairSpec (c : CalDAVEvent) (g : GoogleCalendarEvent) (m : EventMapping) :
    Bool × Bool :=
  let cc := m.last_caldav_modified.isNone ||
    (match c.last_modified, m.last_caldav_modified with
     | some x, some y => decide (x > y)
     | _, _ => false)
  let gc := m.last_google_updated.isNone ||
    (match g.updated, m.last_google_updated with
     | some x, some y => decide (x > y)
     | _, _ => false)
  if !cc && !gc then
    (decide (caldavContentHash c ≠ optStr m.event_hash),
     decide (googleContentHash g ≠ optStr m.event_hash))
  else (cc, gc)

/-- The code's timestamp test agrees with the specification's phrasing. -/
theorem tsChanged_eq (mo ls : Option Int) :
    tsChanged mo ls =
      (ls.isNone ||
        (match mo, ls with
         | some x, some y => decide (x > y)
         | _, _ => false)) := by
  cases ls <;> cases mo <;> simp [tsChanged]

/-- For a non-null mapping with a (truthy) persisted hash, the code's
analysis is exactly the four-way decision on the specification's
`(caldav_changed, google_changed)` pair. -/
theorem analyzeConflictOrUpdate_eq_spec (c : CalDAVEvent) (g : GoogleCalendarEvent)
    (m : EventMapping) (hm : strTruthy m.event_hash = true) :
    analyzeConflictOrUpdate c g (some m) =
      (if !(changedPairSpec c g m).1 && !(changedPairSpec c g m).2 then
        { action := .NO_CHANGE, event_uid := c.uid, caldav_event := some c,
          google_event := some g, existing_mapping := some m,
          reason := "No changes detected" }
      else if (changedPairSpec c g m).1 && !(changedPairSpec c g m).2 then
        { action := .UPDATE, event_uid := c.uid, caldav_event := some c,
          google_event := some g, existing_mapping := some m,
          reason := "CalDAV event updated" }
      else if (changedPairSpec c g m).2 && !(changedPairSpec c g m).1 then
        { action := .UPDATE, event_uid := c.uid, caldav_event := some c,
          google_event := some g, existing_mapping := some m,
          reason := "Google event updated" }
      else
        { action := .UPDATE, event_uid := c.uid, caldav_event := some c,
          google_event := some g, existing_mapping := some m,
          conflict_resolution := some (resolveConflict c g).1,
          reason := "Conflict detected - both events modified" }) := by
  simp only [analyzeConflictOrUpdate, changedPairSpec, Option.some_bind, hm, if_true,
             tsChanged_eq]

/-- C1: for every paired event couple with a non-null persisted mapping
carrying a content hash, the differ computes `caldav_changed` and
`google_changed` as the specification states (timestamp test with
content-hash fallback), and classifies the pair as NO_CHANGE / UPDATE
with CalDAV as source / UPDATE with Google as source / a conflict
carrying a `conflict_resolution`. -/
theorem differ_change_classification (c : CalDAVEvent) (g : GoogleCalendarEvent)
    (m : EventMapping) (hm : strTruthy m.event_hash = true) :
    ((changedPairSpec c g m).1 = false → (changedPairSpec c g m).2 = false →
      (analyzeConflictOrUpdate c g (some m)).action = ChangeAction.NO_CHANGE ∧
      (analyzeConflictOrUpdate c g (some m)).conflict_resolution = none) ∧
    ((changedPairSpec c g m).1 = true → (changedPairSpec c g m).2 = false →
      (analyzeConflictOrUpdate c g (some m)).action = ChangeAction.UPDATE ∧
      (analyzeConflictOrUpdate c g (some m)).conflict_resolution = none ∧
      (analyzeConflictOrUpdate c g (some m)).reason = "CalDAV event updated") ∧
    ((changedPairSpec c g m).1 = false → (changedPairSpec c g m).2 = true →
      (analyzeConflictOrUpdate c g (some m)).action = ChangeAction.UPDATE ∧
      (analyzeConflictOrUpdate c g (some m)).conflict_resolution = none ∧
      (analyzeConflictOrUpdate c g (some m)).reason = "Google event updated") ∧
    ((changedPairSpec c g m).1 = true → (changedPairSpec c g m).2 = true →
      (analyzeConflictOrUpdate c g (some m)).action = ChangeAction.UPDATE ∧
      (analyzeConflictOrUpdate c g (some m)).conflict_resolution =
        some (resolveConflict c g).1) := by
  refine ⟨fun h1 h2 => ?_, fun h1 h2 => ?_, fun h1 h2 => ?_, fun h1 h2 => ?_⟩ <;>
    rw [analyzeConflictOrUpdate_eq_spec c g m hm] <;> simp [h1, h2]

/-- Concrete mapping and pair for the C1 witness: CalDAV side
timestamp-newer, Google side unchanged. -/
def witC1m : EventMapping :=
  { id := "em", mapping_id := "mp", caldav_uid := "w", google_event_id := some "g",
    last_caldav_modified := some 1, last_google_updated := some 1,
    event_hash := some "h" }

/-- Google event for the C1 witness, unchanged since the last sync. -/
def witC1g : GoogleCalendarEvent :=
  { uid := some "w", summary := "s", all_day := true, updated := some 0 }

/-- Witness for `differ_change_classification`: only CalDAV changed gives
an UPDATE with CalDAV as source. -/
theorem differ_change_classification_witness :
    (analyzeConflictOrUpdate witC2c witC1g (some witC1m)).action = ChangeAction.UPDATE ∧
    (analyzeConflictOrUpdate witC2c witC1g (some witC1m)).conflict_resolution = none ∧
    (analyzeConflictOrUpdate witC2c witC1g (some witC1m)).reason = "CalDAV event updated" := by
  have h := (differ_change_classification witC2c witC1g witC1m (by decide)).2.1
  exact h (by decide) (by decide)

/-- A truthy optional string renders to a truthy plain string. -/
theorem pyTruthy_optStr (o : Option String) (h : strTruthy o = true) :
    pyTruthy (optStr o) = true := by
  cases o with
  | none => simp [strTruthy] at h
  | some s => simpa [strTruthy, pyTruthy, optStr] using h

/-- `startswith` holds on a literal concatenation. -/
theorem strStartsWith_append (p s : String) : strStartsWith (p ++ s) p = true := by
  unfold strStartsWith
  rw [String.data_append, List.isPrefixOf_iff_prefix]
  exact p.data.prefix_append s.data

/-- Stripping the 6-character `RRULE:` marker from a concatenation. -/
theorem strDrop_rrule (s : String) : strDrop ("RRULE:" ++ s) 6 = s := by
  unfold strDrop
  rw [String.data_append,
      show (6 : Nat) = ("RRULE:" : String).data.length from rfl,
      List.drop_left]

theorem extractRRule_rrule (s : String) : extractRRule (some ["RRULE:" ++ s]) = some s := by
  unfold extractRRule
  dsimp only
  rw [if_neg (by simp)]
  rw [show List.find? (fun r => strStartsWith r "RRULE:") ["RRULE:" ++ s] =
        some ("RRULE:" ++ s) from
      List.find?_cons_of_pos _ (strStartsWith_append "RRULE:" s)]
  dsimp only
  rw [strDrop_rrule]

/-- `mkGoogleEvent` succeeds exactly by normalising the three date/zone
fields when validation passes. -/
theorem mkGoogleEvent_ok (e : GoogleCalendarEvent)
    (h1 : pyTruthy e.summary = true)
    (h2 : (!e.all_day && (e.start.isNone || e.end_.isNone)) = false) :
    mkGoogleEvent e = Except.ok { e with
      start := (normalizeEventFields e.all_day e.timezone e.start e.end_).2.1,
      end_ := (normalizeEventFields e.all_day e.timezone e.start e.end_).2.2,
      timezone := (normalizeEventFields e.all_day e.timezone e.start e.end_).1 } := by
  unfold mkGoogleEvent
  rw [h1, h2]
  rfl

/-- `mkCalDAVEvent` succeeds exactly by normalising the three date/zone
fields when validation passes. -/
theorem mkCalDAVEvent_ok (e : CalDAVEvent)
    (h0 : pyTruthy e.uid = true)
    (h1 : pyTruthy e.summary = true)
    (h2 : (!e.all_day && (e.start.isNone || e.end_.isNone)) = false) :
    mkCalDAVEvent e = Except.ok { e with
      start := (normalizeEventFields e.all_day e.timezone e.start e.end_).2.1,
      end_ := (normalizeEventFields e.all_day e.timezone e.start e.end_).2.2,
      timezone := (normalizeEventFields e.all_day e.timezone e.start e.end_).1 } := by
  unfold mkCalDAVEvent
  rw [h0, h1, h2]
  rfl

/-- What being a constructor fixpoint gives: the validations pass and the
normalisation leaves the three date/zone fields unchanged. -/
theorem isNormalizedG_spec (g : GoogleCalendarEvent) (h : isNormalizedG g = true) :
    pyTruthy g.summary = true ∧
    (!g.all_day && (g.start.isNone || g.end_.isNone)) = false ∧
    normalizeEventFields g.all_day g.timezone g.start g.end_ =
      (g.timezone, g.start, g.end_) := by
  unfold isNormalizedG at h
  cases hmk : mkGoogleEvent g with
  | error e => rw [hmk] at h; simp at h
  | ok g2 =>
    rw [hmk] at h
    have hge : g2 = g := of_decide_eq_true h
    subst hge
    unfold mkGoogleEvent at hmk
    split at hmk
    · exact absurd hmk (by simp)
    next hval1 =>
    split at hmk
    · exact absurd hmk (by simp)
    next hval2 =>
    injection hmk with hmk
    refine ⟨by simpa using hval1, by rw [← Bool.not_eq_true]; exact hval2, ?_⟩
    have h1 := congrArg GoogleCalendarEvent.start hmk
    have h2 := congrArg GoogleCalendarEvent.end_ hmk
    have h3 := congrArg GoogleCalendarEvent.timezone hmk
    simp only at h1 h2 h3
    exact Prod.ext h3 (Prod.ext h1 h2)

/-- C8 (amended): for every normalized Google event with a truthy `uid`,
no `recurring_event_id`, and a recurrence list that is empty or a single
(nonempty) `RRULE:` entry, converting to CalDAV form and back succeeds
and preserves the content hash. -/
theorem roundtrip_hash_amended (g : GoogleCalendarEvent)
    (hN : isNormalizedG g = true)
    (hU : strTruthy g.uid = true)
    (hR : g.recurring_event_id = none)
    (hrec : g.recurrence = none ∨ g.recurrence = some [] ∨
            ∃ s, g.recurrence = some ["RRULE:" ++ s] ∧ s ≠ "") :
    ∃ (c : CalDAVEvent) (g2 : GoogleCalendarEvent),
      googleToCaldav g = Except.ok c ∧ caldavToGoogle c = Except.ok g2 ∧
      googleContentHash g2 = googleContentHash g := by
  obtain ⟨hsum, hval, hfix⟩ := isNormalizedG_spec g hN
  obtain ⟨u, hu, hune⟩ : ∃ u, g.uid = some u ∧ u ≠ "" := by
    cases hgu : g.uid with
    | none => rw [hgu] at hU; simp [strTruthy] at hU
    | some u =>
      rw [hgu] at hU
      exact ⟨u, rfl, by simpa [strTruthy] using hU⟩
  have huid : pyTruthy (googleToCaldavRaw g).uid = true := by
    show pyTruthy (if strTruthy g.uid then optStr g.uid else optStr g.id) = true
    rw [hU]
    simpa using pyTruthy_optStr g.uid hU
  have hok1 : mkCalDAVEvent (googleToCaldavRaw g) = Except.ok (googleToCaldavRaw g) := by
    rw [mkCalDAVEvent_ok (googleToCaldavRaw g) huid hsum hval]
    have hnef : normalizeEventFields (googleToCaldavRaw g).all_day
        (googleToCaldavRaw g).timezone (googleToCaldavRaw g).start
        (googleToCaldavRaw g).end_ =
        ((googleToCaldavRaw g).timezone, (googleToCaldavRaw g).start,
         (googleToCaldavRaw g).end_) := hfix
    rw [hnef]
  have hg2c : googleToCaldav g = Except.ok (googleToCaldavRaw g) := by
    unfold googleToCaldav
    rw [hok1]
  have hok2 : mkGoogleEvent (caldavToGoogleRaw (googleToCaldavRaw g)) =
      Except.ok (caldavToGoogleRaw (googleToCaldavRaw g)) := by
    rw [mkGoogleEvent_ok (caldavToGoogleRaw (googleToCaldavRaw g)) hsum hval]
    have hnef : normalizeEventFields (caldavToGoogleRaw (googleToCaldavRaw g)).all_day
        (caldavToGoogleRaw (googleToCaldavRaw g)).timezone
        (caldavToGoogleRaw (googleToCaldavRaw g)).start
        (caldavToGoogleRaw (googleToCaldavRaw g)).end_ =
        ((caldavToGoogleRaw (googleToCaldavRaw g)).timezone,
         (caldavToGoogleRaw (googleToCaldavRaw g)).start,
         (caldavToGoogleRaw (googleToCaldavRaw g)).end_) := hfix
    rw [hnef]
  have hcg : caldavToGoogle (googleToCaldavRaw g) =
      Except.ok (caldavToGoogleRaw (googleToCaldavRaw g)) := by
    unfold caldavToGoogle
    rw [hok2]
  refine ⟨googleToCaldavRaw g, caldavToGoogleRaw (googleToCaldavRaw g), hg2c, hcg, ?_⟩
  unfold googleContentHash
  refine congrArg sha256hex ?_
  refine congrArg (String.intercalate "|") ?_
  rcases hrec with h | h | ⟨s, h, hs⟩
  · simp [caldavToGoogleRaw, googleToCaldavRaw, h, hU, hR, hu, hune, optStr, strTruthy,
          extractRRule]
  · simp [caldavToGoogleRaw, googleToCaldavRaw, h, hU, hR, hu, hune, optStr, strTruthy,
          extractRRule]
  · simp [caldavToGoogleRaw, googleToCaldavRaw, h, hU, hR, hu, hune, optStr, strTruthy,
          extractRRule_rrule, hs]

/-- Witness for `roundtrip_hash_amended`: the concrete recurring event
round-trips with its hash preserved. -/
theorem roundtrip_hash_amended_witness :
    ∃ (c : CalDAVEvent) (g2 : GoogleCalendarEvent),
      googleToCaldav cexC7g = Except.ok c ∧ caldavToGoogle c = Except.ok g2 ∧
      googleContentHash g2 = googleContentHash cexC7g :=
  roundtrip_hash_amended cexC7g (by decide) (by decide) rfl
    (Or.inr (Or.inr ⟨"FREQ=DAILY", by decide, by decide⟩))

/-- A normalized Google event that is an overridden instance of a
recurring series. -/
def cexC8g : GoogleCalendarEvent :=
  { uid := some "u", summary := "s", all_day := true, recurring_event_id := some "r" }

/-- Its image under `google_to_caldav` (the `recurring_event_id` is
dropped: the normalizer always sets `recurrence_id = None`). -/
def cexC8c : CalDAVEvent := { uid := "u", summary := "s", all_day := true }

/-- The round-trip result. -/
def cexC8g2 : GoogleCalendarEvent := { uid := some "u", summary := "s", all_day := true }

/-- C8 counterexample: for a normalized Google event carrying a
`recurring_event_id`, the round trip drops that field, and the content
hash — which covers it — changes, refuting
`H(caldav_to_google(google_to_caldav(e_g))) = H(e_g)`. -/
theorem roundtrip_hash_cex :
    isNormalizedG cexC8g = true ∧
    googleToCaldav cexC8g = Except.ok cexC8c ∧
    caldavToGoogle cexC8c = Except.ok cexC8g2 ∧
    googleContentHash cexC8g2 ≠ googleContentHash cexC8g := by
  refine ⟨by decide, rfl, rfl, by decide⟩
